import Mathlib

/-!
Verification of the Produce-Submit-Confirm (PSC) pipeline of the godwoken
block producer, shallowly embedded from
`crates/block-producer/src/psc.rs` and
`crates/rpc-server/src/in_queue_request_map.rs`.

Machine integers (`u64`) are modelled as `Nat` with explicit `% 2^64`
where overflow is possible; fallible lookups return `Option` / `Except`;
`expect`/panic sites are modelled as `Option.none` (resp. `Except.error`).
-/

namespace Psc

/-- Width of `u64` values. -/
def U64MOD : Nat := 2 ^ 64

/-- `u64::MAX`. -/
def U64MAX : Nat := 2 ^ 64 - 1

/-! ## Basic data model

`H256` hashes and opaque molecule blobs are abstracted as `Nat`; what the
claims need is only equality. -/

/-- An L1 out-point: transaction hash plus output index
(`gw_types::packed::OutPoint`). -/
structure OutPoint where
  tx_hash : Nat
  index : Nat
deriving DecidableEq, Repr

/-- An L1 transaction (`gw_types::packed::Transaction`): its hash and its
input out-points.  Equality of this structure models byte-identity of the
serialized transaction. -/
structure Transaction where
  hash : Nat
  inputs : List OutPoint
deriving DecidableEq, Repr

/-- `gw_types::packed::NumberHash`: an L2 block number paired with the block
hash. -/
structure NumberHash where
  number : Nat
  block_hash : Nat
deriving DecidableEq, Repr

/-- A withdrawal record; only the hash is relevant to the embedded code
(the `ensure!(extra.hash() == w.hash())` check). -/
structure Withdrawal where
  hash : Nat
deriving DecidableEq, Repr

/-- `DepositInfo`: a deposit cell selected for a block; the embedded code
uses only its cell's out-point (`d.cell().out_point()` / `d.cell.out_point`). -/
structure DepositInfo where
  out_point : OutPoint
deriving DecidableEq, Repr

/-- An L2 block, restricted to the fields `submit_next_block` reads:
number, hash, timestamp (milliseconds) and the withdrawal list. -/
structure L2Block where
  number : Nat
  hash : Nat
  timestamp : Nat
  withdrawals : List Withdrawal
deriving DecidableEq, Repr

/-- Post-block global state, opaque. -/
def GlobalState := Nat
deriving instance DecidableEq, Repr for GlobalState

/-! ## The `since` computation (`greater_since`, psc.rs lines 478-481)

`Since::new_timestamp_seconds` comes from `gw_utils::since`, which is not
among the sources; its arithmetic content is modelled from the spec. -/

/-- Modelled from the spec: `gw_utils::since::Since` in seconds-of-unix-time
lock mode (the only mode `psc.rs` uses).  `Since::new_timestamp_seconds(s)`
stores the seconds value `s`; `extract_lock_value().timestamp()` yields
`s * 1000` milliseconds (the spec: "`since.timestamp_s * 1000`").
Stored values are `u64`. -/
structure Since where
  timestamp_seconds : Nat
deriving DecidableEq, Repr

/-- Millisecond value of a seconds-resolution `Since`, as `u64` arithmetic. -/
def Since.timestamp_ms (s : Since) : Nat :=
  s.timestamp_seconds * 1000 % U64MOD

/-- `greater_since` (psc.rs line 479-481): a since whose timestamp is
strictly greater than `timestamp_millis`.  `timestamp_millis / 1000 + 1`
is `u64` arithmetic. -/
def greater_since (timestamp_millis : Nat) : Since :=
  ⟨(timestamp_millis / 1000 + 1) % U64MOD⟩

/-! ## Confirm-task polling decision (`poll_tx_confirmed`, psc.rs 398-443)

One iteration of the polling loop inspects the L1 transaction status and
either keeps waiting, exits the loop (committed), or resends.  The decision
is a pure function of the status and of the elapsed milliseconds since the
last send. -/

/-- `gw_types::offchain::TxStatus`. -/
inductive TxStatus where
  | pending
  | proposed
  | committed
  | rejected
  | unknown
deriving DecidableEq, Repr

/-- Outcome of one iteration of the `poll_tx_confirmed` loop. -/
inductive PollAction where
  | wait
  | finish
  | resend
deriving DecidableEq, Repr

/-- One iteration of the polling loop in `poll_tx_confirmed`
(psc.rs lines 406-411): `Pending`/`Proposed` wait, `Committed` breaks,
`Rejected` resends, `Unknown`/absent resends iff more than 20 s
(20000 ms) elapsed since the last send. -/
def poll_decision (status : Option TxStatus) (elapsed_ms : Nat) : PollAction :=
  match status with
  | some TxStatus.pending => PollAction.wait
  | some TxStatus.proposed => PollAction.wait
  | some TxStatus.committed => PollAction.finish
  | some TxStatus.rejected => PollAction.resend
  | some TxStatus.unknown =>
      if 20000 < elapsed_ms then PollAction.resend else PollAction.wait
  | none =>
      if 20000 < elapsed_ms then PollAction.resend else PollAction.wait

/-! ## In-queue request map (`in_queue_request_map.rs`)

The map state is a function from `H256` (modelled as `Nat`) to
`Option Request`.  `HashMap::insert` replaces the stored value and returns
the previous one; the handle holds the key and removes it on drop. -/

/-- `crate::registry::Request`: an L2 transaction or a withdrawal request. -/
inductive Request where
  | tx (t : Nat)
  | withdrawal (w : Nat)
deriving DecidableEq, Repr

/-- The contents of an `InQueueRequestMap`. -/
def ReqMap := Nat → Option Request

/-- An `InQueueRequestHandle`: records the hash it guards
(the weak back-reference to the map is implicit: `dropHandle` below is
its action on a still-live map). -/
structure InQueueRequestHandle where
  hash : Nat
deriving DecidableEq, Repr

/-- `InQueueRequestMap::insert` (lines 19-31): `HashMap::insert(k, v)`
always stores `v` under `k`; a handle is returned iff the previous value
was absent. -/
def insertReq (m : ReqMap) (k : Nat) (v : Request) :
    ReqMap × Option InQueueRequestHandle :=
  let m2 : ReqMap := fun k2 => if k2 = k then some v else m k2
  let inserted := (m k).isNone
  (m2, if inserted then some ⟨k⟩ else none)

/-- `InQueueRequestMap::remove` (lines 33-37). -/
def removeReq (m : ReqMap) (k : Nat) : ReqMap :=
  fun k2 => if k2 = k then none else m k2

/-- `InQueueRequestHandle::drop` (lines 64-70) on a still-live map:
removes the handle's hash from the map. -/
def dropHandle (m : ReqMap) (h : InQueueRequestHandle) : ReqMap :=
  removeReq m h.hash

/-! ## Store model

The durable key-value store, restricted to the keys `psc.rs` touches.
Per-block tables are functions from the block number (or block hash) to an
optional value; a `none` models an absent key. -/

/-- The store state visible to the PSC pipeline. -/
structure Store where
  /-- `get_last_valid_tip_block`: number of the last valid tip block
  (present on any initialized chain). -/
  last_valid_number : Nat
  /-- Hash of the last valid tip block. -/
  last_valid_hash : Nat
  /-- `get_last_submitted_block_number_hash`. -/
  last_submitted : Option NumberHash
  /-- `get_last_confirmed_block_number_hash`. -/
  last_confirmed : Option NumberHash
  /-- `get_submit_tx`, keyed by block number. -/
  submit_tx : Nat → Option Transaction
  /-- `get_block_deposit_info_vec`, keyed by block number. -/
  block_deposit_info_vec : Nat → Option (List DepositInfo)
  /-- `get_block_hash_by_number`. -/
  block_hash_by_number : Nat → Option Nat
  /-- `get_block`, keyed by block hash. -/
  block_by_hash : Nat → Option L2Block
  /-- `get_withdrawal_by_key`, keyed by block hash and withdrawal index. -/
  withdrawal_by_key : Nat → Nat → Option Withdrawal
  /-- `get_block_post_global_state`, keyed by block hash. -/
  block_post_global_state : Nat → Option GlobalState

/-! ## Initialization (`ProduceSubmitConfirm::init`, psc.rs lines 45-113)

Rebuilding the `LocalCellsManager` is recorded as the trace of `apply_tx`
and `lock_cell` calls made on it (the manager itself lives in `gw_utils`,
outside these sources; the claims about it concern exactly this call
trace). -/

/-- A call made on the `LocalCellsManager`. -/
inductive LCMOp where
  | apply_tx (tx : Transaction)
  | lock_cell (out_point : OutPoint)
deriving DecidableEq, Repr

/-- The `apply_tx` calls of `init`: for each
`b in last_confirmed + 1 ..= last_submitted`, load `submit_tx(b)`
(its absence is a panic, modelled as `none`) and apply it. -/
def initApplyTrace (s : Store) (lc ls : Nat) : Option (List LCMOp) :=
  (List.range' (lc + 1) (ls - lc)).mapM fun b =>
    (s.submit_tx b).map LCMOp.apply_tx

/-- The `lock_cell` calls of `init`: for each
`b in last_submitted + 1 ..= last_valid`, load `deposit_info_vec(b)`
(absence is a panic) and lock every deposit cell's out-point. -/
def initLockTrace (s : Store) (ls lv : Nat) : Option (List LCMOp) :=
  ((List.range' (ls + 1) (lv - ls)).mapM fun b =>
      s.block_deposit_info_vec b).map fun vs =>
    vs.flatten.map fun d => LCMOp.lock_cell d.out_point

/-- The result of `ProduceSubmitConfirm::init`: the store as left by the
initialization transaction, the three pointers, the derived counters, and
the `LocalCellsManager` rebuild trace. -/
structure InitState where
  store : Store
  last_valid : Nat
  last_submitted : Nat
  last_confirmed : Nat
  local_count : Nat
  submitted_count : Nat
  lcm_trace : List LCMOp

/-- The `last_submitted` branch of `init` (psc.rs lines 56-63): read the
pointer; when absent, set it to the last-valid `NumberHash` and persist. -/
def initSubmitted (s : Store) : Nat × Store :=
  match s.last_submitted with
  | some b => (b.number, s)
  | none =>
      (s.last_valid_number,
       { s with last_submitted := some ⟨s.last_valid_number, s.last_valid_hash⟩ })

/-- The `last_confirmed` branch of `init` (psc.rs lines 64-71), same shape. -/
def initConfirmed (s : Store) : Nat × Store :=
  match s.last_confirmed with
  | some b => (b.number, s)
  | none =>
      (s.last_valid_number,
       { s with last_confirmed := some ⟨s.last_valid_number, s.last_valid_hash⟩ })

/-- `ProduceSubmitConfirm::init` (psc.rs lines 45-113).  Within one store
transaction: read `last_valid`; each of `last_submitted` /
`last_confirmed` that is absent is set (and persisted) to the last-valid
`NumberHash` independently of the other.  Then the `LocalCellsManager` is
rebuilt and the counters are derived by `u64` subtraction (which the code
only reaches with ordered pointers; `Nat` subtraction here). -/
def pscInit (s : Store) : Option InitState :=
  let lv := s.last_valid_number
  let q1 := initSubmitted s
  let q2 := initConfirmed q1.2
  match initApplyTrace q2.2 q2.1 q1.1, initLockTrace q2.2 q1.1 lv with
  | some t1, some t2 =>
      some ⟨q2.2, lv, q1.1, q2.1, lv - q1.1, q1.1 - q2.1, t1 ++ t2⟩
  | _, _ => none

/-! ## Submit task (`submit_next_block`, psc.rs lines 285-396)

The block-producer composition routine (`compose_submit_tx`) is an
external collaborator; it is a parameter of the embedding.  The function
returns the store as it leaves it, the transaction passed to
`send_transaction`, and whether the composition routine was called.
The median wait and the broadcast outcome are external I/O and do not
affect which transaction is sent. -/

/-- `ComposeSubmitTxArgs` (minus the read-only `LocalCellsManager`
reference, which is subsumed by quantifying over composers). -/
structure ComposeSubmitTxArgs where
  deposit_cells : List DepositInfo
  block : L2Block
  global_state : GlobalState
  since : Since
  withdrawal_extras : List Withdrawal

/-- The external `BlockProducer::compose_submit_tx` routine. -/
def Composer := ComposeSubmitTxArgs → Except String Transaction

/-- Restore `Vec<WithdrawalRequestExtra>` from the store (psc.rs lines
311-321): one `get_withdrawal_by_key` lookup per withdrawal of the block,
each checked against the withdrawal hash recorded in the block. -/
def collectWithdrawalExtras (s : Store) (block_hash : Nat) :
    List Withdrawal → Nat → Except String (List Withdrawal)
  | [], _ => Except.ok []
  | w :: rest, idx =>
      match s.withdrawal_by_key block_hash idx with
      | none => Except.error "get withdrawal"
      | some extra =>
          if extra.hash = w.hash then
            (collectWithdrawalExtras s block_hash rest (idx + 1)).map
              fun l => extra :: l
          else Except.error "withdrawal hash mismatch"

/-- `submit_next_block` (psc.rs lines 285-396), up to the transaction it
broadcasts.  The submitted block is `last_submitted + 1`; if
`submit_tx(n)` is already stored it is used verbatim, otherwise the
composition routine runs and its result is persisted before use. -/
def submit_next_block (composer : Composer) (s : Store) :
    Except String (Store × Transaction × Bool) :=
  match s.last_submitted with
  | none => Except.error "get last submitted block number"
  | some nh =>
    let block_number := nh.number + 1
    match s.block_hash_by_number block_number with
    | none => Except.error "failed to get next block hash"
    | some block_hash =>
      match s.block_by_hash block_hash with
      | none => Except.error "get_block"
      | some block =>
        let since := greater_since block.timestamp
        match s.submit_tx block_number with
        | some tx => Except.ok (s, tx, false)
        | none =>
          match collectWithdrawalExtras s block_hash block.withdrawals 0 with
          | Except.error e => Except.error e
          | Except.ok withdrawal_extras =>
            match s.block_deposit_info_vec block_number with
            | none => Except.error "failed to get deposit info vec"
            | some deposit_cells =>
              match s.block_post_global_state block_hash with
              | none => Except.error "failed to get block global_state"
              | some global_state =>
                match composer ⟨deposit_cells, block, global_state, since,
                    withdrawal_extras⟩ with
                | Except.error e => Except.error e
                | Except.ok tx =>
                    let s2 := { s with submit_tx := fun m =>
                      if m = block_number then some tx else s.submit_tx m }
                    Except.ok (s2, tx, true)

/-! ## The PSC controller event loop (`run`, psc.rs lines 121-206)

One iteration of the loop is: one `select!` branch fires (an event), then
the spawn section launches at most one submit task and at most one confirm
task.  Pointer writes happen only in the completion handlers; a running
task's block number was fixed when it read the store, which equals the
controller's pointer plus one because the controller is the only pointer
writer and at most one task of each kind runs.  Quiescent points are the
states between iterations. -/

/-- Controller state at a quiescent point: persisted pointers (numbers),
in-memory counters, the window limits, the two task flags, and the block
number each running task will return. -/
structure CtrlState where
  last_valid : Nat
  last_submitted : Nat
  last_confirmed : Nat
  local_count : Nat
  submitted_count : Nat
  local_limit : Nat
  submitted_limit : Nat
  submitting : Bool
  syncing : Bool
  submit_target : Nat
  sync_target : Nat
deriving DecidableEq, Repr

/-- The `select!` branch that fires in one loop iteration.
`produce_ok` is the timer branch with `produce_local_block` succeeding
(advancing the tip by one block); `produce_err` is `produce_local_block`
failing before its store transaction commits (nothing persisted);
`produce_partial` is `produce_local_block` failing after the commit at
psc.rs line 268 (e.g. `notify_new_tip`, lines 274-278, errors): the
persisted tip has advanced but the handler at lines 135-139 does not
increment `local_count`; `submit_ok` / `sync_ok` are task completions
with an `Ok` join result; `submit_join_err` / `sync_join_err` are
non-panic join errors (the `_ => {}` match arm); `idle` is the `else`
branch.  Panicking tasks terminate the loop (`bail!`) and are not
steps. -/
inductive Event where
  | produce_ok
  | produce_err
  | produce_partial
  | submit_ok
  | submit_join_err
  | sync_ok
  | sync_join_err
  | idle
deriving DecidableEq, Repr

/-- The event-handling part of one loop iteration (psc.rs lines 129-172).
`none` means the branch's guard does not admit the event. -/
def handleEvent : Event → CtrlState → Option CtrlState
  | Event.produce_ok, s =>
      if s.local_count < s.local_limit then
        some { s with last_valid := s.last_valid + 1,
                      local_count := s.local_count + 1 }
      else none
  | Event.produce_err, s =>
      if s.local_count < s.local_limit then some s else none
  | Event.produce_partial, s =>
      if s.local_count < s.local_limit then
        some { s with last_valid := s.last_valid + 1 }
      else none
  | Event.submit_ok, s =>
      if s.submitting then
        some { s with submitting := false,
                      last_submitted := s.submit_target,
                      submitted_count := s.submitted_count + 1,
                      local_count := s.local_count - 1 }
      else none
  | Event.submit_join_err, s =>
      if s.submitting then some { s with submitting := false } else none
  | Event.sync_ok, s =>
      if s.syncing then
        some { s with syncing := false,
                      last_confirmed := s.sync_target,
                      submitted_count := s.submitted_count - 1 }
      else none
  | Event.sync_join_err, s =>
      if s.syncing then some { s with syncing := false } else none
  | Event.idle, s => some s

/-- The submit-task half of the spawn section (psc.rs lines 173-188):
spawn a submit task iff no submit task is running, there is a local
block, and the submitted window is open.  A freshly spawned task reads
its block number from the store: `last_submitted + 1`. -/
def spawnSubmit (s : CtrlState) : CtrlState :=
  if s.submitting = false ∧ 0 < s.local_count ∧
      s.submitted_count < s.submitted_limit then
    { s with submitting := true, submit_target := s.last_submitted + 1 }
  else s

/-- The confirm-task half of the spawn section (psc.rs lines 189-204). -/
def spawnSync (s : CtrlState) : CtrlState :=
  if s.syncing = false ∧ 0 < s.submitted_count then
    { s with syncing := true, sync_target := s.last_confirmed + 1 }
  else s

/-- The whole spawn section: submit task first, then confirm task. -/
def spawnPhase (s : CtrlState) : CtrlState :=
  spawnSync (spawnSubmit s)

/-- One full iteration of the `run` loop: handle one event, then run the
spawn section. -/
def ctrlStep (e : Event) (s : CtrlState) : Option CtrlState :=
  match handleEvent e s with
  | some s1 => some (spawnPhase s1)
  | none => none

/-- The controller state right after `init` (psc.rs lines 101-112 and
121-127): counters from `init`, limits 3 and 5, no task running. -/
def initCtrl (r : InitState) : CtrlState :=
  ⟨r.last_valid, r.last_submitted, r.last_confirmed,
   r.local_count, r.submitted_count, 3, 5, false, false, 0, 0⟩

/-- Quiescent states reachable from `s0` by loop iterations. -/
inductive Reachable (s0 : CtrlState) : CtrlState → Prop
  | refl : Reachable s0 s0
  | step (e : Event) {s s2 : CtrlState} :
      Reachable s0 s → ctrlStep e s = some s2 → Reachable s0 s2

/-! ## Controller invariants -/

/-- Ordering invariant: the pointers are ordered, `local_count` never
exceeds `last_valid - last_submitted` (equality can be lost by a
partial produce: the commit advances the tip while the failing iteration
leaves the counter alone), `submitted_count` is exactly the submitted
window, and a running task's target block is the successor of the
matching pointer with the corresponding enabling conditions still true. -/
def InvOrd (s : CtrlState) : Prop :=
  s.last_confirmed ≤ s.last_submitted ∧
  s.last_submitted ≤ s.last_valid ∧
  s.local_count ≤ s.last_valid - s.last_submitted ∧
  s.submitted_count = s.last_submitted - s.last_confirmed ∧
  (s.submitting = true →
    s.submit_target = s.last_submitted + 1 ∧
    0 < s.local_count ∧
    s.submitted_count < s.submitted_limit) ∧
  (s.syncing = true →
    s.sync_target = s.last_confirmed + 1 ∧
    s.last_confirmed < s.last_submitted)

/-- Window invariant: the counters respect the limits. -/
def InvLim (s : CtrlState) : Prop :=
  s.submitted_count ≤ s.submitted_limit ∧ s.local_count ≤ s.local_limit

theorem invOrd_spawnSubmit {s : CtrlState} (h : InvOrd s) :
    InvOrd (spawnSubmit s) := by
  obtain ⟨lv, ls, lc, lcnt, scnt, llim, slim, sub, syn, st, syt⟩ := s
  obtain ⟨h1, h2, h3, h4, h5, h6⟩ := h
  dsimp only at h1 h2 h3 h4 h5 h6
  unfold spawnSubmit
  split
  case isTrue hc =>
    obtain ⟨hcb, hcl, hcs⟩ := hc
    dsimp only at hcb hcl hcs
    unfold InvOrd
    dsimp only
    exact ⟨h1, h2, h3, h4, fun _ => ⟨rfl, hcl, hcs⟩, fun hsy => h6 hsy⟩
  case isFalse hc =>
    exact ⟨h1, h2, h3, h4, h5, h6⟩

theorem invOrd_spawnSync {s : CtrlState} (h : InvOrd s) :
    InvOrd (spawnSync s) := by
  obtain ⟨lv, ls, lc, lcnt, scnt, llim, slim, sub, syn, st, syt⟩ := s
  obtain ⟨h1, h2, h3, h4, h5, h6⟩ := h
  dsimp only at h1 h2 h3 h4 h5 h6
  unfold spawnSync
  split
  case isTrue hc =>
    obtain ⟨hcb, hcs⟩ := hc
    dsimp only at hcb hcs
    unfold InvOrd
    dsimp only
    exact ⟨h1, h2, h3, h4, fun hsub => h5 hsub, fun _ => ⟨rfl, by omega⟩⟩
  case isFalse hc =>
    exact ⟨h1, h2, h3, h4, h5, h6⟩

theorem invOrd_spawnPhase {s : CtrlState} (h : InvOrd s) :
    InvOrd (spawnPhase s) :=
  invOrd_spawnSync (invOrd_spawnSubmit h)

theorem invOrd_handleEvent {e : Event} {s s2 : CtrlState}
    (h : InvOrd s) (hs : handleEvent e s = some s2) : InvOrd s2 := by
  obtain ⟨lv, ls, lc, lcnt, scnt, llim, slim, sub, syn, st, syt⟩ := s
  obtain ⟨h1, h2, h3, h4, h5, h6⟩ := h
  dsimp only at h1 h2 h3 h4 h5 h6
  cases e <;> dsimp only [handleEvent] at hs
  case produce_ok =>
    split at hs
    case isTrue hguard =>
      cases hs
      unfold InvOrd
      dsimp only
      refine ⟨h1, by omega, by omega, h4, ?_, h6⟩
      intro hb
      obtain ⟨ht, hpos, hlim⟩ := h5 hb
      exact ⟨ht, by omega, hlim⟩
    case isFalse => cases hs
  case produce_err =>
    split at hs
    case isTrue => cases hs; exact ⟨h1, h2, h3, h4, h5, h6⟩
    case isFalse => cases hs
  case produce_partial =>
    split at hs
    case isTrue hguard =>
      cases hs
      unfold InvOrd
      dsimp only
      refine ⟨h1, by omega, by omega, h4, ?_, h6⟩
      intro hb
      obtain ⟨ht, hpos, hlim⟩ := h5 hb
      exact ⟨ht, hpos, hlim⟩
    case isFalse => cases hs
  case submit_ok =>
    split at hs
    case isTrue hb =>
      cases hs
      obtain ⟨ht, hpos, hlim⟩ := h5 hb
      subst ht
      unfold InvOrd
      dsimp only
      refine ⟨by omega, by omega, by omega, by omega,
        fun hf => absurd hf (by simp), ?_⟩
      intro hsy
      obtain ⟨hst, hcs⟩ := h6 hsy
      exact ⟨hst, by omega⟩
    case isFalse => cases hs
  case submit_join_err =>
    split at hs
    case isTrue =>
      cases hs
      exact ⟨h1, h2, h3, h4, fun hf => absurd hf (by simp), h6⟩
    case isFalse => cases hs
  case sync_ok =>
    split at hs
    case isTrue hb =>
      cases hs
      obtain ⟨hst, hcs⟩ := h6 hb
      subst hst
      unfold InvOrd
      dsimp only
      refine ⟨by omega, h2, h3, by omega, ?_,
        fun hf => absurd hf (by simp)⟩
      intro hsub
      obtain ⟨ht, hpos, hlim⟩ := h5 hsub
      exact ⟨ht, hpos, by omega⟩
    case isFalse => cases hs
  case sync_join_err =>
    split at hs
    case isTrue =>
      cases hs
      exact ⟨h1, h2, h3, h4, h5, fun hf => absurd hf (by simp)⟩
    case isFalse => cases hs
  case idle =>
    cases hs
    exact ⟨h1, h2, h3, h4, h5, h6⟩

theorem invOrd_step {e : Event} {s s2 : CtrlState}
    (h : InvOrd s) (hs : ctrlStep e s = some s2) : InvOrd s2 := by
  unfold ctrlStep at hs
  cases hh : handleEvent e s with
  | none => rw [hh] at hs; cases hs
  | some s1 =>
      rw [hh] at hs
      cases hs
      exact invOrd_spawnPhase (invOrd_handleEvent h hh)

theorem invOrd_reachable {s0 s : CtrlState}
    (h0 : InvOrd s0) (hr : Reachable s0 s) : InvOrd s := by
  induction hr with
  | refl => exact h0
  | step e _ hstep ih => exact invOrd_step ih hstep

theorem spawnSubmit_fields (s : CtrlState) :
    (spawnSubmit s).last_valid = s.last_valid ∧
    (spawnSubmit s).last_submitted = s.last_submitted ∧
    (spawnSubmit s).last_confirmed = s.last_confirmed ∧
    (spawnSubmit s).local_count = s.local_count ∧
    (spawnSubmit s).submitted_count = s.submitted_count ∧
    (spawnSubmit s).local_limit = s.local_limit ∧
    (spawnSubmit s).submitted_limit = s.submitted_limit ∧
    (spawnSubmit s).syncing = s.syncing ∧
    (spawnSubmit s).sync_target = s.sync_target := by
  unfold spawnSubmit
  split <;> exact ⟨rfl, rfl, rfl, rfl, rfl, rfl, rfl, rfl, rfl⟩

theorem spawnSync_fields (s : CtrlState) :
    (spawnSync s).last_valid = s.last_valid ∧
    (spawnSync s).last_submitted = s.last_submitted ∧
    (spawnSync s).last_confirmed = s.last_confirmed ∧
    (spawnSync s).local_count = s.local_count ∧
    (spawnSync s).submitted_count = s.submitted_count ∧
    (spawnSync s).local_limit = s.local_limit ∧
    (spawnSync s).submitted_limit = s.submitted_limit ∧
    (spawnSync s).submitting = s.submitting ∧
    (spawnSync s).submit_target = s.submit_target := by
  unfold spawnSync
  split <;> exact ⟨rfl, rfl, rfl, rfl, rfl, rfl, rfl, rfl, rfl⟩

theorem spawnPhase_counts (s : CtrlState) :
    (spawnPhase s).last_valid = s.last_valid ∧
    (spawnPhase s).last_submitted = s.last_submitted ∧
    (spawnPhase s).last_confirmed = s.last_confirmed ∧
    (spawnPhase s).local_count = s.local_count ∧
    (spawnPhase s).submitted_count = s.submitted_count ∧
    (spawnPhase s).local_limit = s.local_limit ∧
    (spawnPhase s).submitted_limit = s.submitted_limit := by
  obtain ⟨f1, f2, f3, f4, f5, f6, f7, _, _⟩ := spawnSync_fields (spawnSubmit s)
  obtain ⟨g1, g2, g3, g4, g5, g6, g7, _, _⟩ := spawnSubmit_fields s
  unfold spawnPhase
  exact ⟨f1.trans g1, f2.trans g2, f3.trans g3, f4.trans g4,
    f5.trans g5, f6.trans g6, f7.trans g7⟩

theorem invLim_handleEvent {e : Event} {s s1 : CtrlState}
    (ho : InvOrd s) (hl : InvLim s) (hh : handleEvent e s = some s1) :
    InvLim s1 := by
  obtain ⟨lv, ls, lc, lcnt, scnt, llim, slim, sub, syn, st, syt⟩ := s
  obtain ⟨_, _, _, _, h5, _⟩ := ho
  obtain ⟨hl1, hl2⟩ := hl
  dsimp only at h5 hl1 hl2
  cases e <;> dsimp only [handleEvent] at hh
  case produce_ok =>
    split at hh
    case isTrue hguard =>
      cases hh
      unfold InvLim
      dsimp only
      omega
    case isFalse => cases hh
  case produce_err =>
    split at hh
    case isTrue => cases hh; exact ⟨hl1, hl2⟩
    case isFalse => cases hh
  case produce_partial =>
    split at hh
    case isTrue => cases hh; exact ⟨hl1, hl2⟩
    case isFalse => cases hh
  case submit_ok =>
    split at hh
    case isTrue hb =>
      cases hh
      obtain ⟨_, _, hlim⟩ := h5 hb
      unfold InvLim
      dsimp only
      omega
    case isFalse => cases hh
  case submit_join_err =>
    split at hh
    case isTrue => cases hh; exact ⟨hl1, hl2⟩
    case isFalse => cases hh
  case sync_ok =>
    split at hh
    case isTrue hb =>
      cases hh
      unfold InvLim
      dsimp only
      omega
    case isFalse => cases hh
  case sync_join_err =>
    split at hh
    case isTrue => cases hh; exact ⟨hl1, hl2⟩
    case isFalse => cases hh
  case idle =>
    cases hh
    exact ⟨hl1, hl2⟩

theorem invLim_step {e : Event} {s s2 : CtrlState}
    (ho : InvOrd s) (hl : InvLim s) (hs : ctrlStep e s = some s2) :
    InvLim s2 := by
  unfold ctrlStep at hs
  cases hh : handleEvent e s with
  | none => rw [hh] at hs; cases hs
  | some s1 =>
      rw [hh] at hs
      cases hs
      have h1 := invLim_handleEvent ho hl hh
      obtain ⟨c1, c2, c3, c4, c5, c6, c7⟩ := spawnPhase_counts s1
      unfold InvLim at h1 ⊢
      rw [c4, c5, c6, c7]
      exact h1

theorem invLim_reachable {s0 s : CtrlState}
    (ho : InvOrd s0) (hl : InvLim s0) (hr : Reachable s0 s) : InvLim s := by
  induction hr with
  | refl => exact hl
  | step e hre hstep ih =>
      exact invLim_step (invOrd_reachable ho hre) ih hstep

/-! ## Connecting `init` to the controller -/

theorem pscInit_fields {s : Store} {r : InitState} (h : pscInit s = some r) :
    r.last_valid = s.last_valid_number ∧
    r.local_count = r.last_valid - r.last_submitted ∧
    r.submitted_count = r.last_submitted - r.last_confirmed := by
  unfold pscInit at h
  dsimp only at h
  split at h
  case h_1 => cases h; exact ⟨rfl, rfl, rfl⟩
  case h_2 => cases h

theorem invOrd_initCtrl {s : Store} {r : InitState} (h : pscInit s = some r)
    (h1 : r.last_confirmed ≤ r.last_submitted)
    (h2 : r.last_submitted ≤ r.last_valid) :
    InvOrd (initCtrl r) := by
  obtain ⟨_, hc1, hc2⟩ := pscInit_fields h
  unfold InvOrd initCtrl
  dsimp only
  exact ⟨h1, h2, hc1.le, hc2, fun hf => absurd hf (by simp),
    fun hf => absurd hf (by simp)⟩

theorem invLim_initCtrl {r : InitState}
    (hsc : r.submitted_count ≤ 5) (hlc : r.local_count ≤ 3) :
    InvLim (initCtrl r) := by
  unfold InvLim initCtrl
  dsimp only
  exact ⟨hsc, hlc⟩

/-! ## Concrete states used to instantiate the theorems -/

/-- A store holding only a last-valid tip at height 10 together with both
progress pointers, and no per-block records. -/
def storeBoth10 : Store :=
  ⟨10, 170, some ⟨10, 170⟩, some ⟨10, 170⟩, fun _ => none, fun _ => none,
   fun _ => none, fun _ => none, fun _ _ => none, fun _ => none⟩

/-- The `init` result on `storeBoth10`. -/
def initBoth10 : InitState := ⟨storeBoth10, 10, 10, 10, 0, 0, []⟩

theorem pscInit_storeBoth10 : pscInit storeBoth10 = some initBoth10 := rfl

/-! ## Claim theorems -/

/-- C1: at every quiescent point of the PSC controller — after `init` and
after each event-loop iteration — the persisted progress pointers satisfy
`last_confirmed ≤ last_submitted ≤ last_valid`, for every reachable state
of the controller step relation started from an `init` result whose
pointers satisfy this ordering. -/
theorem C1_pointer_order {store : Store} {r : InitState} {s : CtrlState}
    (hinit : pscInit store = some r)
    (hord1 : r.last_confirmed ≤ r.last_submitted)
    (hord2 : r.last_submitted ≤ r.last_valid)
    (hr : Reachable (initCtrl r) s) :
    s.last_confirmed ≤ s.last_submitted ∧ s.last_submitted ≤ s.last_valid := by
  have h := invOrd_reachable (invOrd_initCtrl hinit hord1 hord2) hr
  exact ⟨h.1, h.2.1⟩

/-- Witness for C1 at the concrete store `storeBoth10`. -/
theorem C1_pointer_order_witness :
    (initCtrl initBoth10).last_confirmed ≤ (initCtrl initBoth10).last_submitted ∧
    (initCtrl initBoth10).last_submitted ≤ (initCtrl initBoth10).last_valid :=
  C1_pointer_order pscInit_storeBoth10 (by decide) (by decide) Reachable.refl

/-- C2: for every millisecond timestamp `t < u64::MAX − 1000`,
`greater_since t` carries the second-resolution value `⌊t / 1000⌋ + 1`,
and its millisecond timestamp `since_ms` satisfies
`t < since_ms ≤ t + 1000`, with `since_ms` the seconds value expressed in
milliseconds. -/
theorem C2_greater_since_law (t : Nat) (h : t < U64MAX - 1000) :
    (greater_since t).timestamp_seconds = t / 1000 + 1 ∧
    t < (greater_since t).timestamp_ms ∧
    (greater_since t).timestamp_ms ≤ t + 1000 ∧
    (greater_since t).timestamp_ms = (t / 1000 + 1) * 1000 := by
  have h64 : U64MOD = 18446744073709551616 := by norm_num [U64MOD]
  have hmax : U64MAX = 18446744073709551615 := by norm_num [U64MAX]
  rw [hmax] at h
  have hsec : (greater_since t).timestamp_seconds = t / 1000 + 1 := by
    show (t / 1000 + 1) % U64MOD = t / 1000 + 1
    rw [h64]
    omega
  have hms : (greater_since t).timestamp_ms = (t / 1000 + 1) * 1000 := by
    show (greater_since t).timestamp_seconds * 1000 % U64MOD = (t / 1000 + 1) * 1000
    rw [hsec, h64]
    omega
  exact ⟨hsec, by rw [hms]; omega, by rw [hms]; omega, hms⟩

/-- Witness for C2 at `t = 1500`. -/
theorem C2_greater_since_law_witness :
    (greater_since 1500).timestamp_seconds = 1500 / 1000 + 1 ∧
    1500 < (greater_since 1500).timestamp_ms ∧
    (greater_since 1500).timestamp_ms ≤ 1500 + 1000 ∧
    (greater_since 1500).timestamp_ms = (1500 / 1000 + 1) * 1000 :=
  C2_greater_since_law 1500 (by norm_num [U64MAX])

/-- C5: in the Confirm Task's polling loop, `Pending`/`Proposed` wait
without resending, `Committed` exits the loop, `Rejected` resends
immediately at any elapsed time, and `Unknown`/absent resends exactly
when more than 20 s (20000 ms) have elapsed since the last send. -/
theorem C5_poll_decision_cases :
    (∀ e, poll_decision (some TxStatus.pending) e = PollAction.wait) ∧
    (∀ e, poll_decision (some TxStatus.proposed) e = PollAction.wait) ∧
    (∀ e, poll_decision (some TxStatus.committed) e = PollAction.finish) ∧
    (∀ e, poll_decision (some TxStatus.rejected) e = PollAction.resend) ∧
    (∀ e, (poll_decision (some TxStatus.unknown) e = PollAction.resend ↔
            20000 < e) ∧
          (poll_decision (some TxStatus.unknown) e = PollAction.wait ↔
            ¬ 20000 < e)) ∧
    (∀ e, (poll_decision none e = PollAction.resend ↔ 20000 < e) ∧
          (poll_decision none e = PollAction.wait ↔ ¬ 20000 < e)) := by
  refine ⟨fun e => rfl, fun e => rfl, fun e => rfl, fun e => rfl,
    fun e => ?_, fun e => ?_⟩ <;>
  · by_cases he : 20000 < e <;> simp [poll_decision, he]

/-- The quiescent state after a partial produce from
`initCtrl initBoth10`: the store transaction committed block 11
(advancing the persisted tip) but `produce_local_block` then failed, so
`local_count` stayed 0 and the spawn section launched nothing. -/
def ctrlPartial1 : CtrlState := ⟨11, 10, 10, 0, 0, 3, 5, false, false, 0, 0⟩

/-- C6: the claimed invariant `local_count = last_valid − last_submitted`
is broken by the code on a real quiescent point.  In
`produce_local_block` the store transaction that persists the new block
(advancing `last_valid`) commits at psc.rs line 268 before the fallible
`notify_new_tip` call (lines 274-278); when that call errors the run
loop (lines 135-139) only logs and does not increment `local_count`.
This theorem evaluates the controller at that failing input: the
resulting quiescent state is reachable and violates the equality. -/
theorem C6_partial_produce_violation :
    ctrlStep Event.produce_partial (initCtrl initBoth10) =
      some ctrlPartial1 ∧
    Reachable (initCtrl initBoth10) ctrlPartial1 ∧
    ctrlPartial1.local_count ≠
      ctrlPartial1.last_valid - ctrlPartial1.last_submitted := by
  refine ⟨by decide, ?_, by decide⟩
  exact Reachable.step Event.produce_partial Reachable.refl (by decide)

/-- The controller state after one successful production step from
`initCtrl initBoth10`: the tip is 11, one local block, and the spawn
section has launched a submit task for block 11. -/
def ctrlProd1 : CtrlState := ⟨11, 10, 10, 1, 0, 3, 5, true, false, 11, 0⟩

theorem ctrlStep_prod1 :
    ctrlStep Event.produce_ok (initCtrl initBoth10) = some ctrlProd1 := by
  decide

/-- C7: the controller spawns a submit task only when none is running,
`local_count > 0` and `submitted_count < submitted_limit`; in every
reachable controller state `submitted_count ≤ submitted_limit`; and after
any production step (which fires only under `local_count < local_limit`)
`local_count ≤ local_limit`. -/
theorem C7_window_limits {store : Store} {r : InitState} {s s2 : CtrlState}
    (hinit : pscInit store = some r)
    (hord1 : r.last_confirmed ≤ r.last_submitted)
    (hord2 : r.last_submitted ≤ r.last_valid)
    (hsc : r.submitted_count ≤ 5) (hlc : r.local_count ≤ 3)
    (hr : Reachable (initCtrl r) s)
    (hprod : ctrlStep Event.produce_ok s = some s2) :
    (∀ t : CtrlState, t.submitting = false →
      ((spawnSubmit t).submitting = true ↔
        0 < t.local_count ∧ t.submitted_count < t.submitted_limit)) ∧
    s.submitted_count ≤ s.submitted_limit ∧
    s2.local_count ≤ s2.local_limit := by
  refine ⟨?_, ?_, ?_⟩
  · intro t ht
    unfold spawnSubmit
    split
    case isTrue hc => exact ⟨fun _ => ⟨hc.2.1, hc.2.2⟩, fun _ => rfl⟩
    case isFalse hc =>
      constructor
      · intro habs
        rw [ht] at habs
        exact absurd habs (by simp)
      · intro hcond
        exact absurd ⟨ht, hcond.1, hcond.2⟩ hc
  · exact (invLim_reachable (invOrd_initCtrl hinit hord1 hord2)
      (invLim_initCtrl hsc hlc) hr).1
  · unfold ctrlStep at hprod
    cases hh : handleEvent Event.produce_ok s with
    | none => rw [hh] at hprod; cases hprod
    | some s1 =>
        rw [hh] at hprod
        cases hprod
        dsimp only [handleEvent] at hh
        split at hh
        case isTrue hguard =>
          cases hh
          obtain ⟨_, _, _, c4, _, c6, _⟩ := spawnPhase_counts _
          rw [c4, c6]
          dsimp only
          omega
        case isFalse => cases hh

/-- Witness for C7: one production step from `initCtrl initBoth10`. -/
theorem C7_window_limits_witness :
    (∀ t : CtrlState, t.submitting = false →
      ((spawnSubmit t).submitting = true ↔
        0 < t.local_count ∧ t.submitted_count < t.submitted_limit)) ∧
    (initCtrl initBoth10).submitted_count ≤
      (initCtrl initBoth10).submitted_limit ∧
    ctrlProd1.local_count ≤ ctrlProd1.local_limit :=
  C7_window_limits pscInit_storeBoth10 (by decide) (by decide) (by decide)
    (by decide) Reachable.refl ctrlStep_prod1

/-- C9: when a submit or confirm task's join result is a non-panic error,
the handler leaves the pointers and both counters unchanged and clears
only its own flag, and the spawn section of the same iteration respawns a
task for the same block number (the matching pointer plus one). -/
theorem C9_join_error_respawn {store : Store} {r : InitState} {s : CtrlState}
    (hinit : pscInit store = some r)
    (hord1 : r.last_confirmed ≤ r.last_submitted)
    (hord2 : r.last_submitted ≤ r.last_valid)
    (hr : Reachable (initCtrl r) s) :
    (∀ s2, s.submitting = true →
      ctrlStep Event.submit_join_err s = some s2 →
      s2.last_valid = s.last_valid ∧ s2.last_submitted = s.last_submitted ∧
      s2.last_confirmed = s.last_confirmed ∧
      s2.local_count = s.local_count ∧
      s2.submitted_count = s.submitted_count ∧
      s2.submitting = true ∧ s2.submit_target = s.submit_target ∧
      s2.submit_target = s.last_submitted + 1) ∧
    (∀ s3, s.syncing = true →
      ctrlStep Event.sync_join_err s = some s3 →
      s3.last_valid = s.last_valid ∧ s3.last_submitted = s.last_submitted ∧
      s3.last_confirmed = s.last_confirmed ∧
      s3.local_count = s.local_count ∧
      s3.submitted_count = s.submitted_count ∧
      s3.syncing = true ∧ s3.sync_target = s.sync_target ∧
      s3.sync_target = s.last_confirmed + 1) := by
  obtain ⟨h1, h2, h3, h4, h5, h6⟩ :=
    invOrd_reachable (invOrd_initCtrl hinit hord1 hord2) hr
  constructor
  · intro s2 hsub hstep
    obtain ⟨ht, hpos, hlim⟩ := h5 hsub
    have hh : handleEvent Event.submit_join_err s =
        some { s with submitting := false } := by
      dsimp only [handleEvent]
      rw [if_pos hsub]
    unfold ctrlStep at hstep
    rw [hh] at hstep
    have hstep2 : some (spawnPhase { s with submitting := false }) =
        some s2 := hstep
    injection hstep2 with heq
    subst heq
    have hcond : ({ s with submitting := false } : CtrlState).submitting =
        false ∧
        0 < ({ s with submitting := false } : CtrlState).local_count ∧
        ({ s with submitting := false } : CtrlState).submitted_count <
          ({ s with submitting := false } : CtrlState).submitted_limit := by
      refine ⟨rfl, ?_, ?_⟩ <;> dsimp only <;> omega
    have hsp : spawnSubmit { s with submitting := false } =
        { s with submitting := true,
                 submit_target := s.last_submitted + 1 } := by
      unfold spawnSubmit
      rw [if_pos hcond]
    unfold spawnPhase
    rw [hsp]
    obtain ⟨f1, f2, f3, f4, f5, _, _, f8, f9⟩ := spawnSync_fields
      { s with submitting := true, submit_target := s.last_submitted + 1 }
    rw [f1, f2, f3, f4, f5, f8, f9]
    exact ⟨rfl, rfl, rfl, rfl, rfl, rfl, ht.symm, rfl⟩
  · intro s3 hsyn hstep
    obtain ⟨hst, hcs⟩ := h6 hsyn
    have hh : handleEvent Event.sync_join_err s =
        some { s with syncing := false } := by
      dsimp only [handleEvent]
      rw [if_pos hsyn]
    unfold ctrlStep at hstep
    rw [hh] at hstep
    have hstep2 : some (spawnPhase { s with syncing := false }) =
        some s3 := hstep
    injection hstep2 with heq
    subst heq
    obtain ⟨g1, g2, g3, g4, g5, _, g7, g8, _⟩ := spawnSubmit_fields
      { s with syncing := false }
    have hcond : (spawnSubmit { s with syncing := false }).syncing = false ∧
        0 < (spawnSubmit { s with syncing := false }).submitted_count := by
      constructor
      · rw [g8]
      · rw [g5]
        dsimp only
        omega
    have hsp : spawnSync (spawnSubmit { s with syncing := false }) =
        { spawnSubmit { s with syncing := false } with
          syncing := true,
          sync_target :=
            (spawnSubmit { s with syncing := false }).last_confirmed + 1 } := by
      unfold spawnSync
      rw [if_pos hcond]
    unfold spawnPhase
    rw [hsp]
    dsimp only
    rw [g1, g2, g3, g4, g5]
    exact ⟨rfl, rfl, rfl, rfl, rfl, rfl, hst.symm, rfl⟩

/-- Witness for C9 at the reachable state `ctrlProd1`, whose submit task
is running. -/
theorem C9_join_error_respawn_witness :
    (∀ s2, ctrlProd1.submitting = true →
      ctrlStep Event.submit_join_err ctrlProd1 = some s2 →
      s2.last_valid = ctrlProd1.last_valid ∧
      s2.last_submitted = ctrlProd1.last_submitted ∧
      s2.last_confirmed = ctrlProd1.last_confirmed ∧
      s2.local_count = ctrlProd1.local_count ∧
      s2.submitted_count = ctrlProd1.submitted_count ∧
      s2.submitting = true ∧ s2.submit_target = ctrlProd1.submit_target ∧
      s2.submit_target = ctrlProd1.last_submitted + 1) ∧
    (∀ s3, ctrlProd1.syncing = true →
      ctrlStep Event.sync_join_err ctrlProd1 = some s3 →
      s3.last_valid = ctrlProd1.last_valid ∧
      s3.last_submitted = ctrlProd1.last_submitted ∧
      s3.last_confirmed = ctrlProd1.last_confirmed ∧
      s3.local_count = ctrlProd1.local_count ∧
      s3.submitted_count = ctrlProd1.submitted_count ∧
      s3.syncing = true ∧ s3.sync_target = ctrlProd1.sync_target ∧
      s3.sync_target = ctrlProd1.last_confirmed + 1) :=
  C9_join_error_respawn pscInit_storeBoth10 (by decide) (by decide)
    (Reachable.step Event.produce_ok Reachable.refl ctrlStep_prod1)

theorem submit_next_block_verbatim {composer : Composer} {s : Store}
    {nh : NumberHash} {bh : Nat} {b : L2Block} {tx : Transaction}
    (h1 : s.last_submitted = some nh)
    (h2 : s.block_hash_by_number (nh.number + 1) = some bh)
    (h3 : s.block_by_hash bh = some b)
    (h4 : s.submit_tx (nh.number + 1) = some tx) :
    submit_next_block composer s = Except.ok (s, tx, false) := by
  unfold submit_next_block
  rw [h1]
  dsimp only
  rw [h2]
  dsimp only
  rw [h3]
  dsimp only
  rw [h4]

/-- C4: if `submit_tx(n)` for the next block `n = last_submitted + 1` is
already persisted, the submit task uses the stored transaction verbatim —
the store is unchanged and the composition routine is not called (the
`false` flag) — and consequently any two consecutive submit-task runs
over the same `last_submitted` pointer broadcast byte-identical
transactions, even under different composition routines. -/
theorem C4_resubmit_safety {composer : Composer} {s : Store}
    {nh : NumberHash} {bh : Nat} {b : L2Block} {tx : Transaction}
    (h1 : s.last_submitted = some nh)
    (h2 : s.block_hash_by_number (nh.number + 1) = some bh)
    (h3 : s.block_by_hash bh = some b)
    (h4 : s.submit_tx (nh.number + 1) = some tx) :
    submit_next_block composer s = Except.ok (s, tx, false) ∧
    (∀ (c1 c2 : Composer) (t : Store) (r1 r2 : Store × Transaction × Bool),
      submit_next_block c1 t = Except.ok r1 →
      submit_next_block c2 r1.1 = Except.ok r2 →
      r2.2.1 = r1.2.1) := by
  refine ⟨submit_next_block_verbatim h1 h2 h3 h4, ?_⟩
  intro c1 c2 t r1 r2 hrun1 hrun2
  unfold submit_next_block at hrun1
  split at hrun1
  case h_1 => cases hrun1
  case h_2 nh0 heq1 =>
    dsimp only at hrun1
    split at hrun1
    case h_1 => cases hrun1
    case h_2 bh0 heq2 =>
      split at hrun1
      case h_1 => cases hrun1
      case h_2 b0 heq3 =>
        split at hrun1
        case h_1 tx0 heq4 =>
          injection hrun1 with h
          subst h
          rw [submit_next_block_verbatim heq1 heq2 heq3 heq4] at hrun2
          injection hrun2 with h
          subst h
          rfl
        case h_2 heq4 =>
          split at hrun1
          case h_1 => cases hrun1
          case h_2 extras heqE =>
            split at hrun1
            case h_1 => cases hrun1
            case h_2 dep heqD =>
              split at hrun1
              case h_1 => cases hrun1
              case h_2 gs heqG =>
                split at hrun1
                case h_1 => cases hrun1
                case h_2 txc heqC =>
                  injection hrun1 with h
                  subst h
                  rw [@submit_next_block_verbatim c2
                    { t with submit_tx := fun m =>
                      if m = nh0.number + 1 then some txc
                      else t.submit_tx m }
                    nh0 bh0 b0 txc
                    heq1 heq2 heq3 (by simp)] at hrun2
                  injection hrun2 with h
                  subst h
                  rfl

/-- The already-persisted submit transaction used by the C4 witness. -/
def txA : Transaction := ⟨99, []⟩

/-- A store whose next submit block is 11 with `submit_tx(11)` persisted. -/
def storeSubmit : Store :=
  ⟨11, 171, some ⟨10, 170⟩, some ⟨10, 170⟩,
   fun m => if m = 11 then some txA else none,
   fun _ => none,
   fun m => if m = 11 then some 300 else none,
   fun h => if h = 300 then some ⟨11, 300, 5000, []⟩ else none,
   fun _ _ => none, fun _ => none⟩

/-- Witness for C4 at `storeSubmit` with a composer that always fails
(never consulted on the verbatim path). -/
theorem C4_resubmit_safety_witness :
    submit_next_block (fun _ => Except.error "unused") storeSubmit =
      Except.ok (storeSubmit, txA, false) ∧
    (∀ (c1 c2 : Composer) (t : Store) (r1 r2 : Store × Transaction × Bool),
      submit_next_block c1 t = Except.ok r1 →
      submit_next_block c2 r1.1 = Except.ok r2 →
      r2.2.1 = r1.2.1) :=
  @C4_resubmit_safety (fun _ => Except.error "unused") storeSubmit
    ⟨10, 170⟩ 300 ⟨11, 300, 5000, []⟩ txA rfl rfl rfl rfl

/-- A store where `last_submitted` is present (at 5) but `last_confirmed`
is absent, with empty deposit-info records for the blocks above 5 so that
`init` succeeds. -/
def storeMixed : Store :=
  ⟨10, 170, some ⟨5, 55⟩, none, fun _ => none, fun _ => some [],
   fun _ => none, fun _ => none, fun _ _ => none, fun _ => none⟩

/-- C3 counterexample: on `storeMixed`, `last_confirmed` is absent, yet
after `init` the persisted `last_submitted` is 5, not `last_valid = 10`;
the claim "if at least one is absent then after init both equal
last_valid" fails on this store. -/
theorem C3_counterexample :
    storeMixed.last_confirmed = none ∧
    (pscInit storeMixed).map InitState.last_submitted = some 5 ∧
    (pscInit storeMixed).map InitState.last_valid = some 10 ∧
    (5 : Nat) ≠ 10 := by
  refine ⟨rfl, rfl, rfl, by decide⟩

/-- C3 (amended): on startup `init` reads `last_valid` within a single
store transaction and treats the two pointers independently: each of
`last_submitted` / `last_confirmed` that is absent is set to `last_valid`
and persisted in that same transaction, while a present pointer is left
at its stored value; in particular when both are absent, both equal
`last_valid` after `init`. -/
theorem C3_init_defaults {s : Store} {r : InitState}
    (h : pscInit s = some r) :
    r.last_valid = s.last_valid_number ∧
    (s.last_submitted = none →
      r.last_submitted = s.last_valid_number ∧
      r.store.last_submitted = some ⟨s.last_valid_number, s.last_valid_hash⟩) ∧
    (s.last_confirmed = none →
      r.last_confirmed = s.last_valid_number ∧
      r.store.last_confirmed = some ⟨s.last_valid_number, s.last_valid_hash⟩) ∧
    (∀ b, s.last_submitted = some b → r.last_submitted = b.number) ∧
    (∀ b, s.last_confirmed = some b → r.last_confirmed = b.number) := by
  unfold pscInit at h
  dsimp only at h
  split at h
  case h_2 => cases h
  case h_1 =>
    cases h
    cases hsub : s.last_submitted <;> cases hcon : s.last_confirmed <;>
      simp_all [initSubmitted, initConfirmed]

/-- Witness for C3 (amended) on the store with both pointers absent. -/
theorem C3_init_defaults_witness :
    (let s : Store := ⟨10, 170, none, none, fun _ => none, fun _ => none,
        fun _ => none, fun _ => none, fun _ _ => none, fun _ => none⟩;
     let r : InitState := ⟨{ s with
        last_submitted := some ⟨10, 170⟩,
        last_confirmed := some ⟨10, 170⟩ }, 10, 10, 10, 0, 0, []⟩;
     r.last_valid = s.last_valid_number ∧
     (s.last_submitted = none →
       r.last_submitted = s.last_valid_number ∧
       r.store.last_submitted = some ⟨s.last_valid_number, s.last_valid_hash⟩) ∧
     (s.last_confirmed = none →
       r.last_confirmed = s.last_valid_number ∧
       r.store.last_confirmed = some ⟨s.last_valid_number, s.last_valid_hash⟩) ∧
     (∀ b, s.last_submitted = some b → r.last_submitted = b.number) ∧
     (∀ b, s.last_confirmed = some b → r.last_confirmed = b.number)) :=
  C3_init_defaults rfl

/-- C8: when both `last_submitted` and `last_confirmed` are present,
`init` leaves the store — in particular all three persisted pointers —
unchanged, and running `init` again returns the identical result: the
same pointers and the same trace of `apply_tx` calls for
`n ∈ (last_confirmed, last_submitted]` and `lock_cell` calls for
`n ∈ (last_submitted, last_valid]`. -/
theorem C8_init_idempotent {s : Store} {r : InitState} {x y : NumberHash}
    (hsub : s.last_submitted = some x) (hcon : s.last_confirmed = some y)
    (h : pscInit s = some r) :
    r.store = s ∧
    r.last_valid = s.last_valid_number ∧
    r.last_submitted = x.number ∧
    r.last_confirmed = y.number ∧
    pscInit r.store = some r := by
  have hfields : r.store = s ∧ r.last_valid = s.last_valid_number ∧
      r.last_submitted = x.number ∧ r.last_confirmed = y.number := by
    unfold pscInit at h
    dsimp only at h
    split at h
    case h_2 => cases h
    case h_1 =>
      cases h
      simp [initSubmitted, initConfirmed, hsub, hcon]
  exact ⟨hfields.1, hfields.2.1, hfields.2.2.1, hfields.2.2.2,
    hfields.1 ▸ h⟩

/-- Witness for C8 at the concrete store `storeBoth10`. -/
theorem C8_init_idempotent_witness :
    initBoth10.store = storeBoth10 ∧
    initBoth10.last_valid = storeBoth10.last_valid_number ∧
    initBoth10.last_submitted = NumberHash.number ⟨10, 170⟩ ∧
    initBoth10.last_confirmed = NumberHash.number ⟨10, 170⟩ ∧
    pscInit initBoth10.store = some initBoth10 :=
  C8_init_idempotent rfl rfl pscInit_storeBoth10

/-- C10: `InQueueRequestMap::insert(k, v)` returns a handle iff `k` was
absent; when `k` is present it returns `None` but still replaces the
stored request with `v`; a returned handle carries hash `k`; and dropping
any handle on a live map removes whatever is stored under its hash. -/
theorem C10_insert_drop_semantics (m : ReqMap) (k : Nat) (v : Request) :
    ((insertReq m k v).2.isSome = true ↔ m k = none) ∧
    (m k ≠ none → (insertReq m k v).2 = none) ∧
    (insertReq m k v).1 k = some v ∧
    (∀ hdl, (insertReq m k v).2 = some hdl → hdl.hash = k) ∧
    (∀ (m2 : ReqMap) (hdl : InQueueRequestHandle),
      dropHandle m2 hdl hdl.hash = none) := by
  refine ⟨?_, ?_, ?_, ?_, ?_⟩
  · cases hmk : m k <;> simp [insertReq, hmk]
  · intro hne
    cases hmk : m k with
    | none => exact absurd hmk hne
    | some w => simp [insertReq, hmk]
  · simp [insertReq]
  · intro hdl hins
    cases hmk : m k <;> simp [insertReq, hmk] at hins
    rw [← hins]
  · intro m2 hdl
    simp [dropHandle, removeReq]

/-- Witness for C10 at the empty map, key 0 and a transaction request. -/
theorem C10_insert_drop_semantics_witness :
    ((insertReq (fun _ => none) 0 (Request.tx 7)).2.isSome = true ↔
      (fun _ => (none : Option Request)) 0 = none) ∧
    ((fun _ => (none : Option Request)) 0 ≠ none →
      (insertReq (fun _ => none) 0 (Request.tx 7)).2 = none) ∧
    (insertReq (fun _ => none) 0 (Request.tx 7)).1 0 = some (Request.tx 7) ∧
    (∀ hdl, (insertReq (fun _ => none) 0 (Request.tx 7)).2 = some hdl →
      hdl.hash = 0) ∧
    (∀ (m2 : ReqMap) (hdl : InQueueRequestHandle),
      dropHandle m2 hdl hdl.hash = none) :=
  C10_insert_drop_semantics (fun _ => none) 0 (Request.tx 7)

end Psc
